import Mathlib

/-!
# Project PEAK — verification of the packet-relay protocol and dashboard

A shallow embedding of the Project PEAK sources: the LoRaWAN packet
pseudocode of `src/3-Feb-Demo/README.md` (sections 7 and 8), the
spec-described packet codec and fusion matcher (whose Python files
`protocol/packet_builder.py`, `protocol/packet_handler.py` and
`data_fusion/fusion.py` are declared in the README's tree but are not
present in the sources), and the dashboard scripts
(`api/static/app.js`, `WEB-VIEW/src/components/SignalStats.tsx`).
-/

/-! ## Data model: the wire packet

Field widths follow the README section 8.B table: protocol_version 8,
packet_id 32, source_node_id 16, dest_node_id 16, timestamp 64,
position 128, signal_type 8, signal_strength 8, protocol 8,
signal_info_length 8 + variable, strength_over_time_length 8 + variable,
speed_direction 16, packet_life_counter 8, checksum 16.
The life counter is carried as an integer because the README pseudocode
mutates it with Python integer arithmetic. -/
structure Packet where
  protocol_version : Nat
  packet_id : Nat
  source_node_id : Nat
  dest_node_id : Nat
  timestamp : Nat
  position : Nat
  signal_type : Nat
  signal_strength : Nat
  protocol : Nat
  signal_info : List Nat
  strength_over_time : List Nat
  speed_direction : Nat
  packet_life_counter : Int
  checksum : Nat
deriving DecidableEq

/-! ## Byte-level helpers for the codec -/

/-- Big-endian fixed-width serialisation of the value `v` into `n` bytes. -/
def writeBytes : Nat → Nat → List Nat
  | 0, _ => []
  | n + 1, v => v / 256 ^ n :: writeBytes n (v % 256 ^ n)

/-- Big-endian accumulator-style reader of `n` bytes. -/
def readBytesAux : Nat → Nat → List Nat → Option (Nat × List Nat)
  | 0, acc, bs => some (acc, bs)
  | _ + 1, _, [] => none
  | n + 1, acc, b :: bs => readBytesAux n (acc * 256 + b) bs

/-- Read an `n`-byte big-endian value off the front of the buffer. -/
def readBytes (n : Nat) (bs : List Nat) : Option (Nat × List Nat) :=
  readBytesAux n 0 bs

/-- Read a raw chunk of `n` bytes, with an explicit bounds check. -/
def readChunk (n : Nat) (bs : List Nat) : Option (List Nat × List Nat) :=
  if n ≤ bs.length then some (bs.take n, bs.drop n) else none

theorem length_writeBytes (n v : Nat) : (writeBytes n v).length = n := by
  induction n generalizing v with
  | zero => rfl
  | succ n ih => simp [writeBytes, ih]

theorem readBytesAux_writeBytes (n : Nat) :
    ∀ (acc v : Nat) (rest : List Nat), v < 256 ^ n →
      readBytesAux n acc (writeBytes n v ++ rest) = some (acc * 256 ^ n + v, rest) := by
  induction n with
  | zero =>
    intro acc v rest hv
    interval_cases v
    simp [writeBytes, readBytesAux]
  | succ n ih =>
    intro acc v rest hv
    have hmod : v % 256 ^ n < 256 ^ n := Nat.mod_lt _ (Nat.pos_pow_of_pos n (by norm_num))
    simp only [writeBytes, List.cons_append, readBytesAux]
    rw [List.append_eq, ih (acc * 256 + v / 256 ^ n) (v % 256 ^ n) rest hmod]
    congr 2
    calc (acc * 256 + v / 256 ^ n) * 256 ^ n + v % 256 ^ n
        = acc * (256 ^ n * 256) + (256 ^ n * (v / 256 ^ n) + v % 256 ^ n) := by ring
      _ = acc * 256 ^ (n + 1) + v := by rw [Nat.div_add_mod v (256 ^ n), pow_succ]

theorem readBytes_writeBytes (n v : Nat) (rest : List Nat) (hv : v < 256 ^ n) :
    readBytes n (writeBytes n v ++ rest) = some (v, rest) := by
  simpa [readBytes] using readBytesAux_writeBytes n 0 v rest hv

theorem readChunk_append (l rest : List Nat) :
    readChunk l.length (l ++ rest) = some (l, rest) := by
  simp [readChunk, List.take_left, List.drop_left]

theorem readBytes_writeBytes_nil (n v : Nat) (hv : v < 256 ^ n) :
    readBytes n (writeBytes n v) = some (v, []) := by
  rw [← List.append_nil (writeBytes n v)]
  exact readBytes_writeBytes n v [] hv

/-! ## Packet codec

Modelled from the spec: `protocol/packet_builder.py` is declared in the
README's project tree but is not among the sources, so `encode`, `decode`
and the checksum follow the spec's codec description — fixed-width header
fields, then length-prefixed variable fields, then a 16-bit checksum over
the preceding bytes; `decode` re-parses with explicit bounds checks and
recomputes the checksum. Field order and widths are the README 8.B table. -/

/-- Modelled from the spec: a 16-bit checksum over a byte sequence
(the spec fixes only its width, so the byte sum reduced mod 2^16). -/
def checksum16 (bs : List Nat) : Nat := bs.sum % 2 ^ 16

/-- Modelled from the spec: the serialised packet body, every field at the
width the README 8.B table gives it, variable fields length-prefixed. -/
def encodeBody (p : Packet) : List Nat :=
  writeBytes 1 p.protocol_version ++ (writeBytes 4 p.packet_id ++
  (writeBytes 2 p.source_node_id ++ (writeBytes 2 p.dest_node_id ++
  (writeBytes 8 p.timestamp ++ (writeBytes 16 p.position ++
  (writeBytes 1 p.signal_type ++ (writeBytes 1 p.signal_strength ++
  (writeBytes 1 p.protocol ++
  (writeBytes 1 p.signal_info.length ++ (p.signal_info ++
  (writeBytes 1 p.strength_over_time.length ++ (p.strength_over_time ++
  (writeBytes 2 p.speed_direction ++
   writeBytes 1 p.packet_life_counter.toNat)))))))))))))

/-- Modelled from the spec: `encode` appends the 16-bit checksum computed
over the preceding bytes. -/
def encode (p : Packet) : List Nat :=
  encodeBody p ++ writeBytes 2 (checksum16 (encodeBody p))

/-- The decode failure taxonomy of the spec's codec section. -/
inductive DecodeError
  | ChecksumMismatch
  | TruncatedPacket
  | UnsupportedVersion
deriving DecidableEq

/-- Modelled from the spec: parse every body field in wire order with
bounds-checked reads; the checksum field is filled from the trailer value
`ck` the caller already read. Fails (`none`) if any read runs out of
bytes or if bytes remain after the last field. -/
def parseBody (bs : List Nat) (ck : Nat) : Option Packet :=
  (readBytes 1 bs).bind fun s1 =>
  (readBytes 4 s1.2).bind fun s2 =>
  (readBytes 2 s2.2).bind fun s3 =>
  (readBytes 2 s3.2).bind fun s4 =>
  (readBytes 8 s4.2).bind fun s5 =>
  (readBytes 16 s5.2).bind fun s6 =>
  (readBytes 1 s6.2).bind fun s7 =>
  (readBytes 1 s7.2).bind fun s8 =>
  (readBytes 1 s8.2).bind fun s9 =>
  (readBytes 1 s9.2).bind fun s10 =>
  (readChunk s10.1 s10.2).bind fun s11 =>
  (readBytes 1 s11.2).bind fun s12 =>
  (readChunk s12.1 s12.2).bind fun s13 =>
  (readBytes 2 s13.2).bind fun s14 =>
  (readBytes 1 s14.2).bind fun s15 =>
  if s15.2.isEmpty then
    some ⟨s1.1, s2.1, s3.1, s4.1, s5.1, s6.1, s7.1, s8.1, s9.1,
          s11.1, s13.1, s14.1, Int.ofNat s15.1, ck⟩
  else none

/-- Modelled from the spec: `decode` splits off the two checksum trailer
bytes, recomputes and compares the checksum, re-parses every field, and
rejects an unsupported protocol version; it never reads past the buffer. -/
def decode (bs : List Nat) : Except DecodeError Packet :=
  if bs.length < 2 then .error .TruncatedPacket
  else
    match readBytes 2 (bs.drop (bs.length - 2)) with
    | none => .error .TruncatedPacket
    | some s =>
      if checksum16 (bs.take (bs.length - 2)) = s.1 then
        match parseBody (bs.take (bs.length - 2)) s.1 with
        | none => .error .TruncatedPacket
        | some p =>
          if p.protocol_version = 1 then .ok p else .error .UnsupportedVersion
      else .error .ChecksumMismatch

/-- A packet is wire-valid when every field fits its width, the version is
the supported one, and the stored checksum is the checksum of the body. -/
def ValidPacket (p : Packet) : Prop :=
  p.protocol_version = 1 ∧ p.packet_id < 2 ^ 32 ∧ p.source_node_id < 2 ^ 16 ∧
  p.dest_node_id < 2 ^ 16 ∧ p.timestamp < 2 ^ 64 ∧ p.position < 2 ^ 128 ∧
  p.signal_type < 256 ∧ p.signal_strength < 256 ∧ p.protocol < 256 ∧
  p.signal_info.length < 256 ∧ p.strength_over_time.length < 256 ∧
  p.speed_direction < 2 ^ 16 ∧ 0 ≤ p.packet_life_counter ∧
  p.packet_life_counter < 256 ∧ p.checksum = checksum16 (encodeBody p)

instance (p : Packet) : Decidable (ValidPacket p) := by
  unfold ValidPacket; infer_instance

theorem parseBody_encodeBody (p : Packet) (h : ValidPacket p) :
    parseBody (encodeBody p) p.checksum = some p := by
  obtain ⟨hver, hpid, hsrc, hdst, hts, hpos, hsty, hsst, hpro, hsil, hsol,
    hspd, httl0, httl1, -⟩ := h
  have b1 : p.protocol_version < 256 ^ 1 := by omega
  have b2 : p.packet_id < 256 ^ 4 := by norm_num at hpid ⊢; omega
  have b3 : p.source_node_id < 256 ^ 2 := by norm_num at hsrc ⊢; omega
  have b4 : p.dest_node_id < 256 ^ 2 := by norm_num at hdst ⊢; omega
  have b5 : p.timestamp < 256 ^ 8 := by norm_num at hts ⊢; omega
  have b6 : p.position < 256 ^ 16 := by norm_num at hpos ⊢; omega
  have b7 : p.signal_type < 256 ^ 1 := by omega
  have b8 : p.signal_strength < 256 ^ 1 := by omega
  have b9 : p.protocol < 256 ^ 1 := by omega
  have b10 : p.signal_info.length < 256 ^ 1 := by omega
  have b11 : p.strength_over_time.length < 256 ^ 1 := by omega
  have b12 : p.speed_direction < 256 ^ 2 := by norm_num at hspd ⊢; omega
  have b13 : p.packet_life_counter.toNat < 256 ^ 1 := by omega
  unfold parseBody encodeBody
  rw [readBytes_writeBytes _ _ _ b1, Option.some_bind]
  rw [readBytes_writeBytes _ _ _ b2, Option.some_bind]
  rw [readBytes_writeBytes _ _ _ b3, Option.some_bind]
  rw [readBytes_writeBytes _ _ _ b4, Option.some_bind]
  rw [readBytes_writeBytes _ _ _ b5, Option.some_bind]
  rw [readBytes_writeBytes _ _ _ b6, Option.some_bind]
  rw [readBytes_writeBytes _ _ _ b7, Option.some_bind]
  rw [readBytes_writeBytes _ _ _ b8, Option.some_bind]
  rw [readBytes_writeBytes _ _ _ b9, Option.some_bind]
  rw [readBytes_writeBytes _ _ _ b10, Option.some_bind]
  rw [readChunk_append, Option.some_bind]
  rw [readBytes_writeBytes _ _ _ b11, Option.some_bind]
  rw [readChunk_append, Option.some_bind]
  rw [readBytes_writeBytes _ _ _ b12, Option.some_bind]
  rw [readBytes_writeBytes_nil _ _ b13, Option.some_bind]
  rw [if_pos List.isEmpty_nil]
  congr 1
  cases p
  simp only [Packet.mk.injEq, and_true, true_and]
  simpa using Int.toNat_of_nonneg httl0

/-- C7: for every valid packet, decoding the encoding returns the packet
exactly — `decode (encode p) = ok p` — where `encode` writes fixed-width
header fields, then length-prefixed variable fields, then a 16-bit
checksum over the preceding bytes. -/
theorem decode_encode_roundtrip (p : Packet) (h : ValidPacket p) :
    decode (encode p) = Except.ok p := by
  have hver : p.protocol_version = 1 := h.1
  have hckEq : p.checksum = checksum16 (encodeBody p) :=
    h.2.2.2.2.2.2.2.2.2.2.2.2.2.2
  have hck : checksum16 (encodeBody p) < 256 ^ 2 := by
    have := Nat.mod_lt (encodeBody p).sum (show 0 < 2 ^ 16 by norm_num)
    unfold checksum16
    norm_num at this ⊢
    omega
  have hlen : (encode p).length = (encodeBody p).length + 2 := by
    simp [encode, length_writeBytes]
  have htd : (encode p).length - 2 = (encodeBody p).length := by omega
  have htake : (encode p).take (encodeBody p).length = encodeBody p :=
    List.take_left _ _
  have hdrop :
      (encode p).drop (encodeBody p).length =
        writeBytes 2 (checksum16 (encodeBody p)) :=
    List.drop_left _ _
  unfold decode
  rw [if_neg (by omega), htd, hdrop, htake, readBytes_writeBytes_nil _ _ hck]
  simp only []
  rw [if_pos trivial, ← hckEq, parseBody_encodeBody p h]
  simp only []
  rw [if_pos hver]

/-- A concrete, fully instantiated sample packet (checksum left blank). -/
def samplePacketBase : Packet :=
  { protocol_version := 1, packet_id := 7, source_node_id := 2,
    dest_node_id := 0xFFFF, timestamp := 1700000000, position := 123456789,
    signal_type := 1, signal_strength := 200, protocol := 3,
    signal_info := [9, 2, 1, 2], strength_over_time := [200, 198],
    speed_direction := 77, packet_life_counter := 5, checksum := 0 }

/-- The sample packet with its checksum field filled in correctly. -/
def samplePacket : Packet :=
  { samplePacketBase with checksum := checksum16 (encodeBody samplePacketBase) }

/-- C7 witness: the round trip holds at a concrete valid packet. -/
theorem decode_encode_roundtrip_witness :
    ValidPacket samplePacket ∧ decode (encode samplePacket) = Except.ok samplePacket :=
  ⟨by decide, decode_encode_roundtrip samplePacket (by decide)⟩

/-! ## Node relay pseudocode (README sections 7.C and 8.C)

`receive_packet` and `update_and_forward_packet` are translated from the
pseudocode at README lines 352-364; the opaque environment calls
(`signal_matches`, `update_compressed_position`, `measure_rssi`) become
fields of `NodeEnv`. -/

/-- The node-local context the README pseudocode consults through opaque
calls: the match test against the node's own data, the node's own
compressed position, and its own compressed RSSI measurement. -/
structure NodeEnv where
  signal_matches : List Nat → Bool
  updated_position : Nat
  measured_rssi : Nat

/-- The possible fates of a handled packet: re-broadcast to peers or
point-to-point transmission to the central controller. -/
inductive NodeAction
  | broadcast (p : Packet)
  | toController (p : Packet)
deriving DecidableEq

/-- The packet carried by a node action. -/
def NodeAction.pkt : NodeAction → Packet
  | NodeAction.broadcast p => p
  | NodeAction.toController p => p

/-- `update_and_forward_packet` from README 8.C: on a signal match the
node overwrites the position with its own and takes the max of the two
signal strengths, then re-broadcasts; no other field (in particular not
the checksum) is touched. -/
def update_and_forward_packet (env : NodeEnv) (packet : Packet) : NodeAction :=
  if env.signal_matches packet.signal_info then
    NodeAction.broadcast
      { packet with
          position := env.updated_position,
          signal_strength := max packet.signal_strength env.measured_rssi }
  else NodeAction.broadcast packet

/-- `receive_packet` from README 8.C: decrement the life counter by one;
if the decremented counter is still positive, update-and-forward,
otherwise send the packet to the controller. -/
def receive_packet (env : NodeEnv) (packet : Packet) : NodeAction :=
  if packet.packet_life_counter - 1 > 0 then
    update_and_forward_packet env
      { packet with packet_life_counter := packet.packet_life_counter - 1 }
  else
    NodeAction.toController
      { packet with packet_life_counter := packet.packet_life_counter - 1 }

/-- A node environment that reports no local signal match. -/
def quietEnv : NodeEnv :=
  { signal_matches := fun _ => false, updated_position := 0, measured_rssi := 0 }

/-- The sample packet with its life counter replaced. -/
def packetWithTtl (t : Int) : Packet :=
  { samplePacketBase with packet_life_counter := t }

/-- C1: the README pseudocode contradicts the claimed boundary rule.
A packet whose counter decrements to 1 is re-broadcast (not delivered to
the controller), and a packet whose counter decrements to 0 is sent to
the controller (not silently dropped). -/
theorem receive_packet_ttl_boundary_divergence :
    receive_packet quietEnv (packetWithTtl 2) =
      NodeAction.broadcast (packetWithTtl 1) ∧
    receive_packet quietEnv (packetWithTtl 1) =
      NodeAction.toController (packetWithTtl 0) := by
  constructor <;> rfl

/-- C5: a received packet's life counter strictly decreases at the hop,
and every packet a node re-broadcasts has a strictly positive counter. -/
theorem ttl_strict_decrease_no_expired_rebroadcast (env : NodeEnv) (p : Packet) :
    (receive_packet env p).pkt.packet_life_counter < p.packet_life_counter ∧
    (∀ q : Packet, receive_packet env p = NodeAction.broadcast q →
      0 < q.packet_life_counter) := by
  unfold receive_packet update_and_forward_packet
  constructor
  · split_ifs <;> simp [NodeAction.pkt]
  · intro q hq
    split_ifs at hq with h1 h2
    · injection hq with hq2
      subst hq2
      exact h1
    · injection hq with hq2
      subst hq2
      exact h1

/-- C5 witness: at a concrete environment and packet the hypothesis of
the re-broadcast conjunct is discharged by evaluation. -/
theorem ttl_strict_decrease_no_expired_rebroadcast_witness :
    (receive_packet quietEnv (packetWithTtl 5)).pkt.packet_life_counter <
      (packetWithTtl 5).packet_life_counter ∧
    0 < (packetWithTtl 4).packet_life_counter :=
  ⟨(ttl_strict_decrease_no_expired_rebroadcast quietEnv (packetWithTtl 5)).1,
   (ttl_strict_decrease_no_expired_rebroadcast quietEnv (packetWithTtl 5)).2
     (packetWithTtl 4) (by decide)⟩

/-- A node environment that always reports a local signal match, placed
at position 9 with a stronger measured RSSI of 255. -/
def fuseEnv : NodeEnv :=
  { signal_matches := fun _ => true, updated_position := 9, measured_rssi := 255 }

/-- The sample packet after the pseudocode's in-flight fusion mutation by
`fuseEnv`: position and strength change, the checksum field does not. -/
def fusedSample : Packet :=
  { samplePacket with position := 9, signal_strength := 255 }

/-- C6: the README pseudocode re-broadcasts a fused (mutated) packet
without recomputing its checksum: the input checksum validates its body,
the broadcast packet differs from the input, and its checksum no longer
validates its body. -/
theorem update_and_forward_stale_checksum :
    update_and_forward_packet fuseEnv samplePacket =
      NodeAction.broadcast fusedSample ∧
    samplePacket.checksum = checksum16 (encodeBody samplePacket) ∧
    fusedSample ≠ samplePacket ∧
    fusedSample.checksum ≠ checksum16 (encodeBody fusedSample) := by
  refine ⟨rfl, rfl, by decide, by decide⟩

/-! ## Packet creation pseudocode (README 8.C step 1) -/

/-- The per-detection context of the README creation pseudocode: every
opaque helper call (`generate_id`, `get_gps_time`, compression helpers)
becomes a field. -/
structure DetectionEnv where
  node_id : Nat
  new_packet_id : Nat
  gps_time : Nat
  compressed_position : Nat
  signal_type_code : Nat
  compressed_rssi : Nat
  protocol_code : Nat
  compressed_signal_info : List Nat
  compressed_rssi_series : List Nat
  speed_direction_code : Nat

/-- The design-default hop budget for a fresh packet (spec: design
default 5; README pseudocode initialises the life counter to 5). -/
def TTL_MAX : Int := 5

/-- Packet creation from README 8.C step 1: protocol_version 1, the
broadcast destination sentinel, life counter 5, and the checksum computed
over the body (the pseudocode's opaque `compute_checksum()`). -/
def create_packet (env : DetectionEnv) : Packet :=
  let base : Packet :=
    { protocol_version := 1,
      packet_id := env.new_packet_id,
      source_node_id := env.node_id,
      dest_node_id := 0xFFFF,
      timestamp := env.gps_time,
      position := env.compressed_position,
      signal_type := env.signal_type_code,
      signal_strength := env.compressed_rssi,
      protocol := env.protocol_code,
      signal_info := env.compressed_signal_info,
      strength_over_time := env.compressed_rssi_series,
      speed_direction := env.speed_direction_code,
      packet_life_counter := 5,
      checksum := 0 }
  { base with checksum := checksum16 (encodeBody base) }

/-- Handling a local detection, README 8.C step 1: build the packet and
broadcast it. -/
def handle_detection (env : DetectionEnv) : NodeAction :=
  NodeAction.broadcast (create_packet env)

/-- C8: every freshly created packet has its life counter initialised to
`TTL_MAX = 5` and its destination set to the all-ones broadcast sentinel
`0xFFFF`, and handling a local detection broadcasts that packet. -/
theorem create_packet_ttl_max_and_broadcast (env : DetectionEnv) :
    (create_packet env).packet_life_counter = TTL_MAX ∧ TTL_MAX = 5 ∧
    (create_packet env).dest_node_id = 0xFFFF ∧
    handle_detection env = NodeAction.broadcast (create_packet env) :=
  ⟨rfl, rfl, rfl, rfl⟩

/-! ## Spec-modelled node receive path with validation and dedup (C2, C3)

The README's project tree declares `protocol/packet_handler.py`, which is
not among the sources; the full receive path below is therefore modelled
from the spec's Node Relay Engine transitions: discard on checksum
failure, discard on duplicate packet_id in the dedup cache, otherwise
insert into the cache and decrement ttl; deliver to the controller at
ttl = 1, drop silently at ttl ≤ 0, otherwise fuse and re-broadcast. -/

/-- Per-node relay state: the recent-dedup cache keyed by packet_id. -/
structure NodeState where
  cache : List Nat
deriving DecidableEq

/-- The outcome of handling one inbound peer packet. -/
inductive RelayOutcome
  | dropped
  | delivered (p : Packet)
  | forwarded (p : Packet)
deriving DecidableEq

/-- Modelled from the spec: the in-flight fusion step of the relay — the
README's update-and-forward mutation followed by the spec's mandatory
checksum recomputation before re-send. -/
def fuse_packet (env : NodeEnv) (p : Packet) : Packet :=
  if env.signal_matches p.signal_info then
    let q : Packet :=
      { p with
          position := env.updated_position,
          signal_strength := max p.signal_strength env.measured_rssi }
    { q with checksum := checksum16 (encodeBody q) }
  else p

/-- Modelled from the spec: the full `receive` transition of the Node
Relay Engine (spec section 4.2). -/
def node_receive (env : NodeEnv) (st : NodeState) (p : Packet) :
    NodeState × RelayOutcome :=
  if p.checksum ≠ checksum16 (encodeBody p) then (st, RelayOutcome.dropped)
  else if p.packet_id ∈ st.cache then (st, RelayOutcome.dropped)
  else if p.packet_life_counter - 1 = 1 then
    (⟨p.packet_id :: st.cache⟩,
     RelayOutcome.delivered { p with packet_life_counter := p.packet_life_counter - 1 })
  else if p.packet_life_counter - 1 ≤ 0 then
    (⟨p.packet_id :: st.cache⟩, RelayOutcome.dropped)
  else
    (⟨p.packet_id :: st.cache⟩,
     RelayOutcome.forwarded
       (fuse_packet env { p with packet_life_counter := p.packet_life_counter - 1 }))

theorem node_receive_of_badChecksum (env : NodeEnv) (st : NodeState) (p : Packet)
    (h : p.checksum ≠ checksum16 (encodeBody p)) :
    node_receive env st p = (st, RelayOutcome.dropped) := by
  unfold node_receive
  rw [if_pos h]

theorem node_receive_of_cached (env : NodeEnv) (st : NodeState) (p : Packet)
    (h : p.packet_id ∈ st.cache) :
    node_receive env st p = (st, RelayOutcome.dropped) := by
  unfold node_receive
  by_cases hck : p.checksum ≠ checksum16 (encodeBody p)
  · rw [if_pos hck]
  · rw [if_neg hck, if_pos h]

theorem node_receive_cache_grows (env : NodeEnv) (st : NodeState) (p : Packet)
    (hck : ¬p.checksum ≠ checksum16 (encodeBody p)) (hmem : p.packet_id ∉ st.cache) :
    (node_receive env st p).1 = ⟨p.packet_id :: st.cache⟩ := by
  unfold node_receive
  rw [if_neg hck, if_neg hmem]
  split_ifs <;> rfl

/-- C2: a peer packet whose checksum fails to validate is discarded
before any further processing — the node's state (in particular its
dedup cache) is unchanged and the outcome is a silent drop, so the
packet is never fused, never re-broadcast and never delivered. -/
theorem checksum_failure_discard (env : NodeEnv) (st : NodeState) (p : Packet)
    (h : p.checksum ≠ checksum16 (encodeBody p)) :
    node_receive env st p = (st, RelayOutcome.dropped) :=
  node_receive_of_badChecksum env st p h

/-- A sample packet whose checksum field has been corrupted. -/
def corruptPacket : Packet :=
  { samplePacket with checksum := samplePacket.checksum + 1 }

/-- C2 witness: the discard holds at a concrete corrupted packet. -/
theorem checksum_failure_discard_witness :
    corruptPacket.checksum ≠ checksum16 (encodeBody corruptPacket) ∧
    node_receive quietEnv ⟨[]⟩ corruptPacket = (⟨[]⟩, RelayOutcome.dropped) :=
  ⟨by decide, checksum_failure_discard quietEnv ⟨[]⟩ corruptPacket (by decide)⟩

/-! ## Spec-modelled controller ingest (C3)

Modelled from the spec: the Controller Ingest component (spec section
4.4) is not among the sources; ingest rejects packets whose packet_id
was already processed, otherwise records the id and attaches the
observation to the best-matching open Track or opens a new one. -/

/-- The controller-side matching window for attaching an observation to
an open track ("a few seconds"). -/
def MATCH_WINDOW : Nat := 5

/-- Modelled from the spec: the controller-level observation match —
equal signal_type and protocol, equal signal_info, timestamps within the
bounded window. -/
def packet_obs_match (a b : Packet) : Bool :=
  a.signal_type == b.signal_type && a.protocol == b.protocol &&
  a.signal_info == b.signal_info &&
  decide (max a.timestamp b.timestamp - min a.timestamp b.timestamp ≤ MATCH_WINDOW)

/-- A controller-side Track: the contributing observations. -/
structure Track where
  observations : List Packet
deriving DecidableEq

/-- Modelled from the spec: attach the observation to the first matching
open track, or open a new track for it. -/
def attachObs : List Track → Packet → List Track
  | [], p => [⟨[p]⟩]
  | t :: ts, p =>
    if t.observations.any fun o => packet_obs_match o p then
      ⟨p :: t.observations⟩ :: ts
    else t :: attachObs ts p

/-- Controller state: the processed packet-id table and the open tracks. -/
structure ControllerState where
  processed : List Nat
  tracks : List Track
deriving DecidableEq

/-- Modelled from the spec: controller ingest; the boolean result reports
whether a Track update took place. -/
def controller_ingest (cs : ControllerState) (p : Packet) :
    ControllerState × Bool :=
  if p.packet_id ∈ cs.processed then (cs, false)
  else (⟨p.packet_id :: cs.processed, attachObs cs.tracks p⟩, true)

theorem controller_ingest_of_processed (cs : ControllerState) (p : Packet)
    (h : p.packet_id ∈ cs.processed) :
    controller_ingest cs p = (cs, false) := by
  unfold controller_ingest
  rw [if_pos h]

/-- C3: processing is idempotent in packet_id. A packet whose id is in a
node's dedup cache is dropped with no state change; a packet whose id is
in the controller's processed table causes no Track update; and
re-delivering any packet to the node or the controller right after a
first delivery leaves the state as after the first delivery alone, with
no forward and no Track update. -/
theorem dedup_idempotent (env : NodeEnv) (st : NodeState)
    (cs : ControllerState) (p : Packet) :
    (p.packet_id ∈ st.cache → node_receive env st p = (st, RelayOutcome.dropped)) ∧
    (p.packet_id ∈ cs.processed → controller_ingest cs p = (cs, false)) ∧
    node_receive env (node_receive env st p).1 p =
      ((node_receive env st p).1, RelayOutcome.dropped) ∧
    controller_ingest (controller_ingest cs p).1 p =
      ((controller_ingest cs p).1, false) := by
  refine ⟨node_receive_of_cached env st p, controller_ingest_of_processed cs p, ?_, ?_⟩
  · by_cases hck : p.checksum ≠ checksum16 (encodeBody p)
    · rw [node_receive_of_badChecksum env st p hck]
      exact node_receive_of_badChecksum env st p hck
    · by_cases hmem : p.packet_id ∈ st.cache
      · rw [node_receive_of_cached env st p hmem]
        exact node_receive_of_cached env st p hmem
      · rw [node_receive_cache_grows env st p hck hmem]
        exact node_receive_of_cached env _ p (List.mem_cons_self _ _)
  · by_cases hmem : p.packet_id ∈ cs.processed
    · rw [controller_ingest_of_processed cs p hmem]
      exact controller_ingest_of_processed cs p hmem
    · have h1 : (controller_ingest cs p).1 =
          ⟨p.packet_id :: cs.processed, attachObs cs.tracks p⟩ := by
        unfold controller_ingest
        rw [if_neg hmem]
      rw [h1]
      exact controller_ingest_of_processed _ p (List.mem_cons_self _ _)

/-- C3 witness: idempotence at a concrete node state, controller state
and packet whose id both tables already hold. -/
theorem dedup_idempotent_witness :
    samplePacket.packet_id ∈ (⟨[7]⟩ : NodeState).cache ∧
    node_receive quietEnv ⟨[7]⟩ samplePacket = (⟨[7]⟩, RelayOutcome.dropped) ∧
    samplePacket.packet_id ∈ (⟨[7], []⟩ : ControllerState).processed ∧
    controller_ingest ⟨[7], []⟩ samplePacket = (⟨[7], []⟩, false) :=
  ⟨by decide,
   (dedup_idempotent quietEnv ⟨[7]⟩ ⟨[7], []⟩ samplePacket).1 (by decide),
   by decide,
   (dedup_idempotent quietEnv ⟨[7]⟩ ⟨[7], []⟩ samplePacket).2.1 (by decide)⟩

/-! ## Spec-modelled fusion matcher (C4)

Modelled from the spec: `data_fusion/fusion.py` is declared in the
README's project tree but is not among the sources; the matcher below
follows the spec's Fusion Matcher section — `matches` compares type,
protocol, frequency within a tolerance and timestamps within a bounded
window; `merge` takes the max strength, a strength-weighted position and
the two strength series concatenated in timestamp order. -/

/-- Frequency agreement tolerance of the matcher. -/
def FREQ_TOL : ℚ := 1

/-- Timestamp window of the matcher ("a few seconds"). -/
def TIME_WINDOW : ℚ := 5

/-- An observation as the Fusion Matcher sees it: type and protocol
codes, frequency, timestamp, compressed strength (larger = stronger),
position coordinates and the strength-over-time series as
(timestamp, strength) pairs. -/
structure Obs where
  signal_type : Nat
  protocol : Nat
  frequency : ℚ
  timestamp : ℚ
  strength : ℚ
  lat : ℚ
  lon : ℚ
  alt : ℚ
  series : List (ℚ × ℚ)
deriving DecidableEq

/-- Modelled from the spec: `matches(a, b)` — equal signal_type and
protocol, frequency within tolerance, timestamps within the window. -/
def obs_matches (a b : Obs) : Bool :=
  a.signal_type == b.signal_type && a.protocol == b.protocol &&
  decide (|a.frequency - b.frequency| ≤ FREQ_TOL) &&
  decide (|a.timestamp - b.timestamp| ≤ TIME_WINDOW)

/-- Timestamp order on series entries. -/
def byTime (x y : ℚ × ℚ) : Bool := decide (x.1 ≤ y.1)

/-- Modelled from the spec: `merge(a, b)` — max signal strength,
strength-weighted position average (the stronger observation weighted
higher), series merged in timestamp order. -/
def obs_merge (a b : Obs) : Obs :=
  { a with
      strength := max a.strength b.strength,
      lat := (a.strength * a.lat + b.strength * b.lat) / (a.strength + b.strength),
      lon := (a.strength * a.lon + b.strength * b.lon) / (a.strength + b.strength),
      alt := (a.strength * a.alt + b.strength * b.alt) / (a.strength + b.strength),
      series := a.series.merge b.series byTime }

theorem byTime_trans (x y z : ℚ × ℚ) :
    byTime x y = true → byTime y z = true → byTime x z = true := by
  simp only [byTime, decide_eq_true_eq]
  exact le_trans

theorem byTime_total (x y : ℚ × ℚ) : (byTime x y || byTime y x) = true := by
  simp only [byTime, Bool.or_eq_true, decide_eq_true_eq]
  exact le_total x.1 y.1

/-- C4: for matching observations, the merge takes the max of the two
strengths; each position coordinate is the strength-weighted average —
the weights are the normalised strengths, they sum to 1, and the
stronger observation gets the strictly larger weight; and the merged
strength_over_time series is the two series in timestamp order — a
permutation of their concatenation, sorted by timestamp. -/
theorem fusion_merge_spec (a b : Obs) (hm : obs_matches a b = true)
    (hw : 0 < a.strength + b.strength)
    (ha : List.Pairwise (fun x y => byTime x y = true) a.series)
    (hb : List.Pairwise (fun x y => byTime x y = true) b.series) :
    (obs_merge a b).strength = max a.strength b.strength ∧
    ((obs_merge a b).lat = (a.strength / (a.strength + b.strength)) * a.lat +
        (b.strength / (a.strength + b.strength)) * b.lat ∧
      (obs_merge a b).lon = (a.strength / (a.strength + b.strength)) * a.lon +
        (b.strength / (a.strength + b.strength)) * b.lon ∧
      (obs_merge a b).alt = (a.strength / (a.strength + b.strength)) * a.alt +
        (b.strength / (a.strength + b.strength)) * b.alt) ∧
    a.strength / (a.strength + b.strength) +
      b.strength / (a.strength + b.strength) = 1 ∧
    (b.strength < a.strength →
      b.strength / (a.strength + b.strength) <
        a.strength / (a.strength + b.strength)) ∧
    ((obs_merge a b).series).Perm (a.series ++ b.series) ∧
    List.Pairwise (fun x y => byTime x y = true) (obs_merge a b).series := by
  have hS : a.strength + b.strength ≠ 0 := ne_of_gt hw
  refine ⟨rfl, ⟨?_, ?_, ?_⟩, ?_, ?_, ?_, ?_⟩
  · show (a.strength * a.lat + b.strength * b.lat) / (a.strength + b.strength) = _
    field_simp
  · show (a.strength * a.lon + b.strength * b.lon) / (a.strength + b.strength) = _
    field_simp
  · show (a.strength * a.alt + b.strength * b.alt) / (a.strength + b.strength) = _
    field_simp
  · rw [div_add_div_same, div_self hS]
  · intro hlt
    rw [div_lt_div_iff₀ hw hw]
    exact mul_lt_mul_of_pos_right hlt hw
  · exact List.perm_merge byTime a.series b.series
  · exact List.sorted_merge byTime_trans byTime_total a.series b.series ha hb

/-- A concrete stronger observation. -/
def obsA : Obs :=
  { signal_type := 1, protocol := 3, frequency := 2412, timestamp := 0,
    strength := 3, lat := 10, lon := 20, alt := 0, series := [(0, 3)] }

/-- A concrete weaker observation of the same signal one second later. -/
def obsB : Obs :=
  { signal_type := 1, protocol := 3, frequency := 2412, timestamp := 1,
    strength := 2, lat := 14, lon := 24, alt := 0, series := [(1, 2)] }

/-- C4 witness: the merge properties hold at two concrete matching
observations. -/
theorem fusion_merge_spec_witness :
    obs_matches obsA obsB = true ∧ (0 : ℚ) < obsA.strength + obsB.strength ∧
    (obs_merge obsA obsB).strength = max obsA.strength obsB.strength ∧
    ((obs_merge obsA obsB).series).Perm (obsA.series ++ obsB.series) :=
  ⟨by norm_num [obs_matches, obsA, obsB, FREQ_TOL, TIME_WINDOW],
   by norm_num [obsA, obsB],
   (fusion_merge_spec obsA obsB
     (by norm_num [obs_matches, obsA, obsB, FREQ_TOL, TIME_WINDOW])
     (by norm_num [obsA, obsB]) (by simp [obsA]) (by simp [obsB])).1,
   (fusion_merge_spec obsA obsB
     (by norm_num [obs_matches, obsA, obsB, FREQ_TOL, TIME_WINDOW])
     (by norm_num [obsA, obsB]) (by simp [obsA]) (by simp [obsB])).2.2.2.2.1⟩

/-! ## Dashboard signal statistics (C9, C10)

`updateSignalStats` is translated from `api/static/app.js` (and the
identical logic in the second dashboard script); `signalTypeCount` from
`WEB-VIEW/src/components/SignalStats.tsx`. -/

/-- One row of the dashboard's signal data (an `/api/data` entry). -/
structure SignalRec where
  type : String
  timestamp : String
  name_address : String
deriving DecidableEq

/-- The dashboard's total-signal count text. -/
def totalSignalsText (data : List SignalRec) : String := toString data.length

/-- `updateSignalStats`'s last-signal-time text: when the list is
non-empty, the timestamp of `data[data.length - 1]`, otherwise the
literal fallback. The JS index access is modelled by `List.get?`, whose
`none` result models an out-of-bounds (undefined) access. -/
def lastSignalTimeText (data : List SignalRec) : Option String :=
  if data.length > 0 then
    (data.get? (data.length - 1)).map SignalRec.timestamp
  else some ("N/A")

/-- C9: with an empty signal list the last-signal-time display is the
literal fallback and no element is accessed; with a non-empty list it is
the timestamp of the list's last element — in particular the index
`data.length - 1` is in bounds, so the access never yields `none`. -/
theorem lastSignalTime_na_or_last (data : List SignalRec) :
    (data = [] → lastSignalTimeText data = some ("N/A")) ∧
    (∀ h : data ≠ [],
      lastSignalTimeText data = some ((data.getLast h).timestamp)) := by
  constructor
  · intro h
    subst h
    rfl
  · intro h
    have hlen : 0 < data.length := List.length_pos.mpr h
    unfold lastSignalTimeText
    rw [if_pos hlen, List.get?_eq_get (show data.length - 1 < data.length by omega),
      List.getLast_eq_getElem]
    simp

/-- A concrete two-entry signal list. -/
def sampleSignals : List SignalRec :=
  [⟨"Wi-Fi", "t1", "aa"⟩, ⟨"Bluetooth", "t2", "bb"⟩]

/-- C9 witness: the last-element display holds at a concrete list. -/
theorem lastSignalTime_na_or_last_witness :
    sampleSignals ≠ [] ∧
    lastSignalTimeText sampleSignals =
      some ((sampleSignals.getLast (by decide)).timestamp) :=
  ⟨by decide, (lastSignalTime_na_or_last sampleSignals).2 (by decide)⟩

/-- JS `n || 0` on a count: 0 is falsy, so this is the identity. -/
def jsOrZero (n : Nat) : Nat := if n = 0 then 0 else n

/-- The SignalStats component's per-type count,
`signalData?.filter(s => s.type === t).length || 0`; `none` models an
undefined `signalData` prop, for which the optional chain is undefined
and `|| 0` renders 0. -/
def signalTypeCount (signalData : Option (List SignalRec)) (t : String) : Nat :=
  match signalData with
  | none => 0
  | some l => jsOrZero (l.filter fun s => s.type == t).length

/-- The three counts the SignalStats component renders. -/
def signalStatsCounts (signalData : Option (List SignalRec)) : Nat × Nat × Nat :=
  (signalTypeCount signalData ("Bluetooth"),
   signalTypeCount signalData ("Wi-Fi"),
   signalTypeCount signalData ("ADS-B"))

/-- C10: each displayed count equals the number of signals whose type
field is exactly the respective literal, and an undefined signal list
renders all three counts as 0. -/
theorem signalStats_counts_exact (l : List SignalRec) :
    signalStatsCounts (some l) =
      (l.countP (fun s => s.type == "Bluetooth"),
       l.countP (fun s => s.type == "Wi-Fi"),
       l.countP (fun s => s.type == "ADS-B")) ∧
    signalStatsCounts none = (0, 0, 0) := by
  have key : ∀ t : String,
      signalTypeCount (some l) t = l.countP (fun s => s.type == t) := by
    intro t
    unfold signalTypeCount jsOrZero
    simp only []
    rw [List.countP_eq_length_filter]
    split_ifs with h
    · omega
    · rfl
  exact ⟨by simp [signalStatsCounts, key], rfl⟩
